import Mathlib

/-!
Verification development for a chat-based todo bot (`bot.py`).

The persistence layer is a single MySQL table
  tasks(user_id BIGINT, id INT, description TEXT, done TINYINT(1), created_at DATETIME,
        PRIMARY KEY (user_id, id))
with four CRUD operations (`add_task`, `list_tasks`, `mark_done`, `delete_task`)
and a Telegram front end (command handlers, a next-step continuation for task
creation, and an inline-callback handler).

Shallow embedding choices:
* The table is a `List Task` in physical insertion order; `INSERT` appends.
* Python `str` values that the handlers inspect character by character are
  modelled as `List Char`; timestamps as `Nat` (the `now` argument stands for
  `CURRENT_TIMESTAMP` at the moment of the insert).
* The `PRIMARY KEY (user_id, id)` declared by `init_db` makes the explicit-id
  `INSERT` in `add_task` raise an integrity error when the computed id already
  exists for that user; `add_task` therefore returns an `Option`, with `none`
  for the duplicate-key case (nothing is committed then).
* `cursor.rowcount` after an `UPDATE` in mysql-connector (which does not set
  the `CLIENT_FOUND_ROWS` flag) is the number of rows actually *changed*, not
  the number of rows matched: updating a row whose `done` is already 1 does
  not count.  `mark_done` models this.  For `DELETE`, rowcount is the number
  of deleted rows.
* `ORDER BY created_at DESC` is modelled by `List.insertionSort` with the
  relation "has a later-or-equal creation time" (ties are left unspecified by
  SQL; insertion sort picks one of the permitted outcomes).
-/

namespace TodoBot

/-- A row of the `tasks` table. -/
structure Task where
  user_id : Int
  id : Int
  description : List Char
  done : Bool
  created_at : Nat
deriving DecidableEq, Repr

/-- The `tasks` table, rows in physical insertion order. -/
abbrev Store := List Task

/-- Row count of a user, `SELECT COUNT(*) FROM tasks WHERE user_id = %s`. -/
def countFor (s : Store) (uid : Int) : Nat :=
  (s.filter (fun t => t.user_id == uid)).length

/-- Model of `add_task(user_id, description)` from bot.py: computes
`next_id = COUNT(*)+1` over the user's rows, then
`INSERT INTO tasks (user_id, id, description) VALUES (...)` (so `done`
defaults to 0 and `created_at` to the current timestamp `now`).
The `PRIMARY KEY (user_id, id)` makes the insert fail when the user already
has a row with id `next_id` (possible once deletions created a gap); the
failure propagates as an exception and nothing is committed — modelled as
`none`.  On success the result is the new table and the returned id. -/
def add_task (s : Store) (uid : Int) (descr : List Char) (now : Nat) :
    Option (Store × Int) :=
  let next_id : Int := (countFor s uid : Int) + 1
  if s.any (fun t => t.user_id == uid && t.id == next_id) then
    none
  else
    some
      (s ++ [{ user_id := uid, id := next_id, description := descr,
               done := false, created_at := now }], next_id)

/-- The descending-`created_at` relation used for `ORDER BY created_at DESC`. -/
def laterFirst (a b : Task) : Prop := b.created_at ≤ a.created_at

instance : DecidableRel laterFirst := fun a b =>
  (inferInstance : Decidable (b.created_at ≤ a.created_at))

/-- Model of `list_tasks(user_id, include_done)` from bot.py:
`SELECT ... WHERE user_id = %s [AND done = 0] ORDER BY created_at DESC`. -/
def list_tasks (s : Store) (uid : Int) (include_done : Bool) : List Task :=
  let rows :=
    if include_done then s.filter (fun t => t.user_id == uid)
    else s.filter (fun t => t.user_id == uid && t.done == false)
  List.insertionSort laterFirst rows

/-- Model of `mark_done(task_id, user_id)` from bot.py:
`UPDATE tasks SET done = 1 WHERE id = %s AND user_id = %s`, returning
`cursor.rowcount`.  mysql-connector does not set `CLIENT_FOUND_ROWS`, so the
reported count is the number of rows whose value actually changed: a matching
row with `done` already 1 is not counted. -/
def mark_done (s : Store) (task_id uid : Int) : Store × Nat :=
  let affected :=
    (s.filter (fun t => t.id == task_id && t.user_id == uid && t.done == false)).length
  (s.map (fun t =>
      if t.id == task_id && t.user_id == uid then { t with done := true } else t),
   affected)

/-- Model of `delete_task(task_id, user_id)` from bot.py:
`DELETE FROM tasks WHERE id = %s AND user_id = %s`, returning the number of
deleted rows. -/
def delete_task (s : Store) (task_id uid : Int) : Store × Nat :=
  let affected := (s.filter (fun t => t.id == task_id && t.user_id == uid)).length
  (s.filter (fun t => !(t.id == task_id && t.user_id == uid)), affected)

/-- One store-mutating operation of the task store. -/
inductive Op where
  | add (uid : Int) (descr : List Char) (now : Nat)
  | markDone (task_id uid : Int)
  | delete (task_id uid : Int)
deriving DecidableEq, Repr

/-- Effect of one operation on the table.  A failed `add` (duplicate key)
commits nothing, so the table is unchanged. -/
def applyOp (s : Store) : Op → Store
  | .add uid d now =>
    match add_task s uid d now with
    | some (s', _) => s'
    | none => s
  | .markDone i uid => (mark_done s i uid).1
  | .delete i uid => (delete_task s i uid).1

/-- Whether an operation is an `add` (the only operation that inserts rows). -/
def isAddOp : Op → Bool
  | .add _ _ _ => true
  | _ => false

/-- Run a sequence of operations from the empty table. -/
def run (ops : List Op) : Store := ops.foldl applyOp []

/-- A table state reachable from the empty table by add/markDone/delete. -/
def Reachable (s : Store) : Prop := ∃ ops : List Op, run ops = s

/-! ### Python string primitives used by the handlers -/

/-- ASCII whitespace as recognised by Python's `str.strip` / `str.split` /
`int()` (space, tab, newline, carriage return, vertical tab, form feed). -/
def isPySpace (c : Char) : Bool :=
  c == ' ' || c == '\t' || c == '\n' || c == '\r' || c == '\x0b' || c == '\x0c'

/-- Python `str.strip()`: drop leading and trailing whitespace. -/
def pyStrip (cs : List Char) : List Char :=
  ((cs.dropWhile isPySpace).reverse.dropWhile isPySpace).reverse

/-- Worker for `pySplitWs`; `cur` is the current token, reversed. -/
def pySplitWsAux : List Char → List Char → List (List Char)
  | [], cur => if cur.isEmpty then [] else [cur.reverse]
  | c :: rest, cur =>
    if isPySpace c then
      if cur.isEmpty then pySplitWsAux rest []
      else cur.reverse :: pySplitWsAux rest []
    else pySplitWsAux rest (c :: cur)

/-- Python `str.split()` with no argument: split on runs of whitespace,
producing no empty tokens. -/
def pySplitWs (cs : List Char) : List (List Char) := pySplitWsAux cs []

/-- Digit-run tail of Python `int()`: after the first digit, digits possibly
separated by single underscores (`int("1_2") = 12`; leading, trailing or
doubled underscores are rejected). -/
def pyDigits : List Char → Nat → Option Nat
  | [], acc => some acc
  | '_' :: c :: rest, acc =>
    if c.isDigit then pyDigits rest (acc * 10 + (c.toNat - 48)) else none
  | c :: rest, acc =>
    if c.isDigit then pyDigits rest (acc * 10 + (c.toNat - 48)) else none

/-- Python `int(s)` on a decimal string: optional surrounding whitespace,
optional sign, then a non-empty digit run (with `pyDigits` underscore rules).
`none` models the `ValueError` raised on anything else. -/
def pyInt (cs : List Char) : Option Int :=
  match pyStrip cs with
  | '+' :: c :: rest =>
    if c.isDigit then (pyDigits rest (c.toNat - 48)).map Int.ofNat else none
  | '-' :: c :: rest =>
    if c.isDigit then (pyDigits rest (c.toNat - 48)).map (fun n => -(n : Int))
    else none
  | c :: rest =>
    if c.isDigit then (pyDigits rest (c.toNat - 48)).map Int.ofNat else none
  | [] => none

/-! ### Dispatcher and handlers -/

/-- Per-chat dispatcher state for the `/new` flow: `awaitingDescription` while
a `register_next_step_handler` continuation is pending, `idle` otherwise. -/
inductive ChatState where
  | idle
  | awaitingDescription
deriving DecidableEq, Repr

/-- Model of `handle_new` (the `/new` command): sends the prompt and registers
`process_new_task` as the next-step continuation. -/
def handle_new : ChatState := .awaitingDescription

/-- Reply sent by the `/new` continuation. -/
inductive NewTaskReply where
  | emptyErr
  | saved (tid : Int)
  | serverErr
deriving DecidableEq, Repr

/-- Model of `process_new_task(message)` from bot.py, as a function of the table, the
sender and the message text (`none` when the message carries no text, e.g. a
sticker — Python evaluates `(message.text or '')` then `.strip()`).  Empty
text replies with an error and creates nothing; otherwise `add_task` runs and
an exception from it (duplicate key, lost connection) is caught and reported
as a generic failure.  The continuation was consumed before the call and the
handler registers no new one, so the chat returns to `idle` on every path. -/
def process_new_task (s : Store) (uid : Int) (text? : Option (List Char))
    (now : Nat) : Store × NewTaskReply × ChatState :=
  let text := pyStrip (text?.getD [])
  if text.isEmpty then (s, .emptyErr, .idle)
  else
    match add_task s uid text now with
    | some (s', tid) => (s', .saved tid, .idle)
    | none => (s, .serverErr, .idle)

/-- Reply sent by the `/done <id>` command handler. -/
inductive DoneReply where
  | usage
  | notNumeric
  | doneOk (tid : Int)
  | notFound
deriving DecidableEq, Repr

/-- Model of `handle_done_cmd(message)` from bot.py: split the message text on
whitespace, require a second token, parse it with `int()`, call `mark_done`,
and report "Задача не найдена или у вас нет к ней доступа" when the affected
count is 0. -/
def handle_done_cmd (s : Store) (uid : Int) (text : List Char) :
    Store × DoneReply :=
  let parts := pySplitWs text
  if parts.length < 2 then (s, .usage)
  else
    match pyInt (parts.getD 1 []) with
    | none => (s, .notNumeric)
    | some tid =>
      let r := mark_done s tid uid
      if r.2 ≠ 0 then (r.1, .doneOk tid) else (r.1, .notFound)

/-- Outcome reported to the user by the inline-callback handler. -/
inductive CallbackNotice where
  | doneOk (tid : Int)
  | delOk (tid : Int)
  | notFound
  | unknown
  | serverError
deriving DecidableEq, Repr

/-- Model of `handle_callback(call)` from bot.py.  `data = call.data or ''`; a
`done:`-prefixed payload parses everything after the first colon with `int()`
(`data.split(':', 1)[1]`, which for a `done:`-prefixed string is `data[5:]`)
and calls `mark_done`; likewise `del:` (`data[4:]`) and `delete_task`; any
other payload answers "Неизвестная команда".  A `ValueError` from `int()` is
caught by the surrounding `except`, which answers "Ошибка на сервере"; either
way no store call was made. -/
def handle_callback (s : Store) (uid : Int) (data? : Option (List Char)) :
    Store × CallbackNotice :=
  let data := data?.getD []
  if "done:".toList.isPrefixOf data then
    match pyInt (data.drop 5) with
    | some tid =>
      let r := mark_done s tid uid
      if r.2 ≠ 0 then (r.1, .doneOk tid) else (r.1, .notFound)
    | none => (s, .serverError)
  else if "del:".toList.isPrefixOf data then
    match pyInt (data.drop 4) with
    | some tid =>
      let r := delete_task s tid uid
      if r.2 ≠ 0 then (r.1, .delOk tid) else (r.1, .notFound)
    | none => (s, .serverError)
  else (s, .unknown)

-- sanity checks (concrete evaluation of the embedding)
example :
    run [.add 7 "a".toList 0, .add 7 "b".toList 1] =
      [⟨7, 1, "a".toList, false, 0⟩, ⟨7, 2, "b".toList, false, 1⟩] := by decide

example :
    add_task (run [.add 7 "a".toList 0, .add 7 "b".toList 1, .add 7 "c".toList 2,
        .delete 1 7]) 7 "d".toList 3 = none := by decide

example :
    (mark_done [⟨7, 1, "a".toList, true, 0⟩] 1 7).2 = 0 := by decide

example :
    list_tasks [⟨7, 1, "a".toList, false, 0⟩, ⟨7, 2, "b".toList, false, 5⟩] 7 false =
      [⟨7, 2, "b".toList, false, 5⟩, ⟨7, 1, "a".toList, false, 0⟩] := by decide

example : pyInt " 42 ".toList = some 42 := by decide
example : pyInt "-3".toList = some (-3) := by decide
example : pyInt "1_2".toList = some 12 := by decide
example : pyInt "1__2".toList = none := by decide
example : pyInt "abc".toList = none := by decide
example : pyInt "".toList = none := by decide
example : pySplitWs "/done  5 ".toList = ["/done".toList, "5".toList] := by decide
example : pyStrip "  hi \t".toList = "hi".toList := by decide
example :
    handle_callback [⟨7, 1, "a".toList, false, 0⟩] 7 (some "done:1".toList) =
      ([⟨7, 1, "a".toList, true, 0⟩], .doneOk 1) := by decide
example :
    handle_callback [⟨7, 1, "a".toList, false, 0⟩] 7 (some "done:x".toList) =
      ([⟨7, 1, "a".toList, false, 0⟩], .serverError) := by decide
example :
    handle_done_cmd [⟨7, 1, "a".toList, true, 0⟩] 7 "/done 1".toList =
      ([⟨7, 1, "a".toList, true, 0⟩], .notFound) := by decide
example :
    process_new_task [] 7 (some "  milk ".toList) 3 =
      ([⟨7, 1, "milk".toList, false, 3⟩], .saved 1, .idle) := by decide
example : process_new_task [] 7 none 3 = ([], .emptyErr, .idle) := by decide

/-! ### Helper lemmas -/

/-- Membership in a `list_tasks` result, through the sort and the filter. -/
lemma mem_list_tasks {s : Store} {uid : Int} {b : Bool} {t : Task} :
    t ∈ list_tasks s uid b ↔
      t ∈ s ∧ t.user_id = uid ∧ (b = true ∨ t.done = false) := by
  cases b <;>
    simp [list_tasks, List.mem_insertionSort, List.mem_filter, and_assoc]

/-- The length of a `list_tasks` result is the length of the filtered rows. -/
lemma length_list_tasks (s : Store) (uid : Int) (b : Bool) :
    (list_tasks s uid b).length =
      (if b then s.filter (fun t => t.user_id == uid)
       else s.filter (fun t => t.user_id == uid && t.done == false)).length := by
  cases b <;> simp [list_tasks, List.length_insertionSort]

/-! ### C1 -/

/-- C1, as stated, fails: the claim quantifies over every reachable store
state, but once a deletion has opened a gap below the maximum id, the
`count+1` id computed by `add` can equal the id of a surviving row, the
`INSERT` violates `PRIMARY KEY (user_id, id)`, and no task is created.
Concretely: user 7 adds three tasks (ids 1, 2, 3), deletes id 1; the next
`add` computes `count+1 = 3`, which collides with the surviving row of id 3,
so `add_task` raises instead of returning an id and `list(7)` does not grow. -/
theorem add_after_gap_fails_counterexample :
    Reachable (run [.add 7 "a".toList 0, .add 7 "b".toList 1,
        .add 7 "c".toList 2, .delete 1 7]) ∧
    add_task (run [.add 7 "a".toList 0, .add 7 "b".toList 1,
        .add 7 "c".toList 2, .delete 1 7]) 7 "d".toList 3 = none ∧
    (list_tasks (applyOp (run [.add 7 "a".toList 0, .add 7 "b".toList 1,
        .add 7 "c".toList 2, .delete 1 7]) (.add 7 "d".toList 3)) 7 false).length =
      (list_tasks (run [.add 7 "a".toList 0, .add 7 "b".toList 1,
        .add 7 "c".toList 2, .delete 1 7]) 7 false).length := by
  refine ⟨⟨_, rfl⟩, by decide, by decide⟩

/-- C1 amended: in any store state where user `uid` has no row with id
`count+1` (true in every state reachable without deletions, and more
generally whenever the ids below the count are gap-free), `add` with a
non-empty description assigns id `count+1`, returns it, and `list(uid)`
afterwards has exactly one more entry, the new one carrying the given
description and `done = false`. -/
theorem add_assigns_count_plus_one (s : Store) (uid : Int) (descr : List Char)
    (now : Nat)
    (hfree : s.any (fun t => t.user_id == uid &&
      t.id == ((countFor s uid : Int) + 1)) = false) :
    ∃ s', add_task s uid descr now = some (s', (countFor s uid : Int) + 1) ∧
      (list_tasks s' uid false).length = (list_tasks s uid false).length + 1 ∧
      (⟨uid, (countFor s uid : Int) + 1, descr, false, now⟩ : Task) ∈
        list_tasks s' uid false := by
  refine ⟨s ++ [⟨uid, (countFor s uid : Int) + 1, descr, false, now⟩], ?_, ?_, ?_⟩
  · simp only [add_task]
    rw [if_neg (by simp [hfree])]
  · rw [length_list_tasks, length_list_tasks]
    simp [List.filter_append]
  · rw [mem_list_tasks]
    exact ⟨List.mem_append_right _ (List.mem_singleton.mpr rfl), rfl, Or.inr rfl⟩

/-- Witness for `add_assigns_count_plus_one` at the empty store. -/
theorem add_assigns_count_plus_one_witness :
    ∃ s', add_task [] 7 "a".toList 0 = some (s', (countFor [] 7 : Int) + 1) ∧
      (list_tasks s' 7 false).length = (list_tasks [] 7 false).length + 1 ∧
      (⟨7, (countFor [] 7 : Int) + 1, "a".toList, false, 0⟩ : Task) ∈
        list_tasks s' 7 false :=
  add_assigns_count_plus_one [] 7 "a".toList 0 (by decide)

/-! ### C2 -/

/-- C2, as stated, fails on the reuse half: once a task of user `uid` holding
the highest id is deleted, the next `add` recomputes `count+1` and assigns
the very id the deleted task had.  Concretely: user 7 adds two tasks (a row
with id 2 exists), deletes id 2 (one row affected), and the next `add`
returns id 2 again. -/
theorem deleted_id_reused_counterexample :
    (run [.add 7 "a".toList 0, .add 7 "b".toList 1]).any
      (fun t => t.user_id == 7 && t.id == 2) = true ∧
    (delete_task (run [.add 7 "a".toList 0, .add 7 "b".toList 1]) 2 7).2 = 1 ∧
    (add_task (run [.add 7 "a".toList 0, .add 7 "b".toList 1,
        .delete 2 7]) 7 "c".toList 2).map Prod.snd = some 2 := by
  refine ⟨by decide, by decide, by decide⟩

/-- C2 amended: deleting one task never changes the id (or any other field)
of another — the surviving table is a sublist of the old one and every
non-matching row survives unchanged — but a deleted id *can* be reassigned by
a later `add` (shown by the counterexample), so ids are never renumbered yet
are not never-reused. -/
theorem delete_preserves_other_rows (s : Store) (i uid : Int) :
    ((delete_task s i uid).1).Sublist s ∧
    ∀ t ∈ s, (t.id = i ∧ t.user_id = uid) ∨ t ∈ (delete_task s i uid).1 := by
  constructor
  · exact List.filter_sublist s
  · intro t ht
    by_cases hm : t.id = i ∧ t.user_id = uid
    · exact Or.inl hm
    · refine Or.inr (List.mem_filter.mpr ⟨ht, ?_⟩)
      simp only [Bool.not_eq_eq_eq_not, Bool.not_true, Bool.and_eq_false_imp,
        beq_iff_eq, Bool.not_eq_true', beq_eq_false_iff_ne, ne_eq]
      intro h1 h2
      exact hm ⟨h1, h2⟩

/-- Witness for `delete_preserves_other_rows` on a two-row store. -/
theorem delete_preserves_other_rows_witness :
    ((delete_task [⟨7, 1, "a".toList, false, 0⟩, ⟨7, 2, "b".toList, false, 1⟩]
        1 7).1).Sublist
      [⟨7, 1, "a".toList, false, 0⟩, ⟨7, 2, "b".toList, false, 1⟩] ∧
    ∀ t ∈ ([⟨7, 1, "a".toList, false, 0⟩, ⟨7, 2, "b".toList, false, 1⟩] : Store),
      (t.id = 1 ∧ t.user_id = 7) ∨
        t ∈ (delete_task [⟨7, 1, "a".toList, false, 0⟩,
          ⟨7, 2, "b".toList, false, 1⟩] 1 7).1 :=
  delete_preserves_other_rows
    [⟨7, 1, "a".toList, false, 0⟩, ⟨7, 2, "b".toList, false, 1⟩] 1 7

/-! ### C3 -/

/-- C3, as stated, fails: a stored row matching both the id and the user is
claimed to yield a non-zero affected count even when already done, but
`cursor.rowcount` after the `UPDATE` (mysql-connector leaves
`CLIENT_FOUND_ROWS` unset) counts only rows actually changed.  Concretely:
the store holds a row with id 1, user 7 and `done = true`; `mark_done 1 7`
matches it yet returns 0. -/
theorem mark_done_already_done_zero_counterexample :
    (∃ t ∈ ([⟨7, 1, "a".toList, true, 0⟩] : Store), t.id = 1 ∧ t.user_id = 7) ∧
    (mark_done [⟨7, 1, "a".toList, true, 0⟩] 1 7).2 = 0 := by
  refine ⟨by decide, by decide⟩

/-- C3 amended: `markDone(id, uid)` returns 0 if and only if no stored row
has that id, that owner, *and* `done = false` — wrong id, wrong owner, and
already-done all land in the same 0 outcome — and the `/done` command handler
maps an affected count of 0 to the "not found / not yours" reply and any
other count to the success reply. -/
theorem mark_done_zero_iff_no_undone_match (s : Store) (i uid : Int) :
    ((mark_done s i uid).2 = 0 ↔
      ∀ t ∈ s, t.id = i → t.user_id = uid → t.done = true) ∧
    ∀ (text : List Char) (tid : Int), 2 ≤ (pySplitWs text).length →
      pyInt ((pySplitWs text).getD 1 []) = some tid →
      handle_done_cmd s uid text =
        ((mark_done s tid uid).1,
         if (mark_done s tid uid).2 = 0 then .notFound else .doneOk tid) := by
  constructor
  · rw [show (mark_done s i uid).2 =
        (s.filter (fun t => t.id == i && t.user_id == uid &&
          t.done == false)).length from rfl,
      List.length_eq_zero, List.filter_eq_nil_iff]
    constructor
    · intro h t ht h1 h2
      by_contra hd
      rw [Bool.not_eq_true] at hd
      exact h t ht (by simp [h1, h2, hd])
    · intro h t ht hpred
      simp only [Bool.and_eq_true, beq_iff_eq] at hpred
      obtain ⟨⟨h1, h2⟩, h3⟩ := hpred
      rw [h t ht h1 h2] at h3
      cases h3
  · intro text tid hlen hp
    simp only [handle_done_cmd]
    rw [if_neg (by omega), hp]
    by_cases hz : (mark_done s tid uid).2 = 0
    · simp [hz]
    · simp [hz]

/-- Witness for `mark_done_zero_iff_no_undone_match`: the iff and the
command-handler correspondence at a concrete one-row store and the command
text "/done 1". -/
theorem mark_done_zero_iff_no_undone_match_witness :
    2 ≤ (pySplitWs "/done 1".toList).length ∧
    pyInt ((pySplitWs "/done 1".toList).getD 1 []) = some 1 ∧
    handle_done_cmd [⟨7, 1, "a".toList, true, 0⟩] 7 "/done 1".toList =
      ((mark_done [⟨7, 1, "a".toList, true, 0⟩] 1 7).1,
       if (mark_done [⟨7, 1, "a".toList, true, 0⟩] 1 7).2 = 0 then .notFound
       else .doneOk 1) :=
  ⟨by decide, by decide,
   (mark_done_zero_iff_no_undone_match [⟨7, 1, "a".toList, true, 0⟩] 1 7).2
     "/done 1".toList 1 (by decide) (by decide)⟩

/-! ### C4 -/

/-- C4, as stated, fails: it asserts the deleted id never reappears even
after further `add` operations, but a later `add` can reassign the deleted
id.  Concretely: user 7 adds two tasks, deletes id 2 (one row affected,
i.e. the delete succeeded), adds another task — and
`list(7, include_done := true)` again contains an entry with id 2. -/
theorem deleted_id_reappears_counterexample :
    (delete_task (run [.add 7 "a".toList 0, .add 7 "b".toList 1]) 2 7).2 = 1 ∧
    (∃ t ∈ list_tasks (run [.add 7 "a".toList 0, .add 7 "b".toList 1,
        .delete 2 7, .add 7 "c".toList 2]) 7 true, t.id = 2) := by
  refine ⟨by decide, by decide⟩

/-- One non-`add` operation preserves "user `uid` has no row with id `i`":
`markDone` rewrites only the `done` flag of existing rows and `delete` only
removes rows. -/
lemma no_key_preserved (uid i : Int) {s : Store} (op : Op)
    (hop : isAddOp op = false)
    (h : ∀ t ∈ s, ¬(t.user_id = uid ∧ t.id = i)) :
    ∀ t ∈ applyOp s op, ¬(t.user_id = uid ∧ t.id = i) := by
  cases op with
  | add _ _ _ => cases hop
  | markDone j v =>
    intro t ht
    simp only [applyOp, mark_done] at ht
    obtain ⟨a, ha, rfl⟩ := List.mem_map.mp ht
    have hsame :
        (if (a.id == j && a.user_id == v) = true then
          ({a with done := true} : Task) else a).user_id = a.user_id ∧
        (if (a.id == j && a.user_id == v) = true then
          ({a with done := true} : Task) else a).id = a.id := by
      split <;> exact ⟨rfl, rfl⟩
    intro hk
    exact h a ha ⟨hsame.1 ▸ hk.1, hsame.2 ▸ hk.2⟩
  | delete j v =>
    intro t ht
    simp only [applyOp, delete_task] at ht
    exact h t (List.mem_filter.mp ht).1

/-- C4 amended: immediately after `delete(i, uid)` the id `i` is absent from
`list(uid, include_done := true)`, and it stays absent under any further
sequence of `markDone`/`delete` operations; only a later `add` (excluded
here, and shown possible by the counterexample) can make the id reappear by
reassigning it. -/
theorem delete_hides_id_until_add (s : Store) (i uid : Int) (ops : List Op)
    (hops : ∀ op ∈ ops, isAddOp op = false) :
    ∀ t ∈ list_tasks (ops.foldl applyOp (delete_task s i uid).1) uid true,
      t.id ≠ i := by
  have base : ∀ t ∈ (delete_task s i uid).1, ¬(t.user_id = uid ∧ t.id = i) := by
    intro t ht
    have hpred := (List.mem_filter.mp
      (show t ∈ s.filter (fun t => !(t.id == i && t.user_id == uid)) from ht)).2
    intro hk
    simp [hk.1, hk.2] at hpred
  have main : ∀ (l : List Op), (∀ op ∈ l, isAddOp op = false) →
      ∀ (st : Store), (∀ t ∈ st, ¬(t.user_id = uid ∧ t.id = i)) →
      ∀ t ∈ l.foldl applyOp st, ¬(t.user_id = uid ∧ t.id = i) := by
    intro l
    induction l with
    | nil => intro _ st hst; simpa using hst
    | cons op rest ih =>
      intro hl st hst
      simp only [List.foldl_cons]
      exact ih (fun o ho => hl o (List.mem_cons_of_mem _ ho)) _
        (no_key_preserved uid i op (hl op (List.mem_cons_self _ _)) hst)
  intro t ht hei
  have hm := mem_list_tasks.mp ht
  exact main ops hops _ base t hm.1 ⟨hm.2.1, hei⟩

/-- Witness for `delete_hides_id_until_add`: after deleting id 1 of user 7
from a two-row store and then marking id 2 done, the full listing contains
no entry with id 1. -/
theorem delete_hides_id_until_add_witness :
    (∀ op ∈ [Op.markDone 2 7], isAddOp op = false) ∧
    ∀ t ∈ list_tasks (([Op.markDone 2 7]).foldl applyOp
        (delete_task [⟨7, 1, "a".toList, false, 0⟩,
          ⟨7, 2, "b".toList, false, 1⟩] 1 7).1) 7 true, t.id ≠ 1 :=
  ⟨by decide,
   delete_hides_id_until_add
     [⟨7, 1, "a".toList, false, 0⟩, ⟨7, 2, "b".toList, false, 1⟩] 1 7
     [Op.markDone 2 7] (by decide)⟩

/-! ### C5 -/

/-- C5 confirmed: the default listing (`include_done = false`) returns only
tasks of the requested user and never one with `done = true`; with
`include_done = true` every task of the user — done ones included — is
returned. -/
theorem list_tasks_filter_correct (s : Store) (uid : Int) :
    (∀ t ∈ list_tasks s uid false, t.user_id = uid ∧ t.done = false) ∧
    (∀ t ∈ list_tasks s uid true, t.user_id = uid) ∧
    (∀ t ∈ s, t.user_id = uid → t ∈ list_tasks s uid true) := by
  refine ⟨?_, ?_, ?_⟩
  · intro t ht
    have h := mem_list_tasks.mp ht
    exact ⟨h.2.1, h.2.2.resolve_left (by simp)⟩
  · intro t ht
    exact (mem_list_tasks.mp ht).2.1
  · intro t ht hu
    exact mem_list_tasks.mpr ⟨ht, hu, Or.inl rfl⟩

/-- Witness for `list_tasks_filter_correct`: a done task of user 7 does
appear in the `include_done = true` listing. -/
theorem list_tasks_filter_correct_witness :
    (⟨7, 1, "a".toList, true, 0⟩ : Task) ∈
      list_tasks [⟨7, 1, "a".toList, true, 0⟩] 7 true :=
  (list_tasks_filter_correct [⟨7, 1, "a".toList, true, 0⟩] 7).2.2
    ⟨7, 1, "a".toList, true, 0⟩ (by decide) rfl

/-! ### C6 -/

/-- C6 confirmed: three tasks of one user created at strictly increasing
times come back from `list` most recent first. -/
theorem list_tasks_orders_desc (uid i1 i2 i3 : Int) (d1 d2 d3 : List Char)
    (t1 t2 t3 : Nat) (h12 : t1 < t2) (h23 : t2 < t3) :
    list_tasks [⟨uid, i1, d1, false, t1⟩, ⟨uid, i2, d2, false, t2⟩,
        ⟨uid, i3, d3, false, t3⟩] uid false =
      [⟨uid, i3, d3, false, t3⟩, ⟨uid, i2, d2, false, t2⟩,
       ⟨uid, i1, d1, false, t1⟩] := by
  have h13 : ¬ (t3 ≤ t1) := Nat.not_le.mpr (h12.trans h23)
  have h23' : ¬ (t3 ≤ t2) := Nat.not_le.mpr h23
  have h12' : ¬ (t2 ≤ t1) := Nat.not_le.mpr h12
  simp [list_tasks, List.insertionSort, List.orderedInsert, laterFirst,
    h13, h23', h12']

/-- Witness for `list_tasks_orders_desc` at times 0 < 1 < 2. -/
theorem list_tasks_orders_desc_witness :
    list_tasks [⟨7, 1, "a".toList, false, 0⟩, ⟨7, 2, "b".toList, false, 1⟩,
        ⟨7, 3, "c".toList, false, 2⟩] 7 false =
      [⟨7, 3, "c".toList, false, 2⟩, ⟨7, 2, "b".toList, false, 1⟩,
       ⟨7, 1, "a".toList, false, 0⟩] :=
  list_tasks_orders_desc 7 1 2 3 "a".toList "b".toList "c".toList 0 1 2
    (by decide) (by decide)

/-! ### C7 -/

/-- C7 confirmed: when the `/new` continuation receives empty or
whitespace-only text, nothing is created — the store, and hence every
listing of the user, is unchanged — the empty-text error is sent, and the
chat returns to `idle`. -/
theorem empty_text_no_mutation (s : Store) (uid : Int)
    (text? : Option (List Char)) (now : Nat)
    (h : (text?.getD []).all isPySpace = true) :
    process_new_task s uid text? now = (s, .emptyErr, .idle) ∧
    ∀ b, list_tasks ((process_new_task s uid text? now).1) uid b =
      list_tasks s uid b := by
  have hstrip : pyStrip (text?.getD []) = [] := by
    unfold pyStrip
    rw [List.dropWhile_eq_nil_iff.mpr (fun x hx => (List.all_eq_true.mp h) x hx)]
    rfl
  have hmain : process_new_task s uid text? now = (s, .emptyErr, .idle) := by
    simp [process_new_task, hstrip]
  exact ⟨hmain, fun b => by rw [hmain]⟩

/-- Witness for `empty_text_no_mutation` on whitespace-only text. -/
theorem empty_text_no_mutation_witness :
    process_new_task [⟨7, 1, "a".toList, false, 0⟩] 7 (some " \t ".toList) 5 =
      ([⟨7, 1, "a".toList, false, 0⟩], .emptyErr, .idle) ∧
    ∀ b, list_tasks ((process_new_task [⟨7, 1, "a".toList, false, 0⟩] 7
        (some " \t ".toList) 5).1) 7 b =
      list_tasks [⟨7, 1, "a".toList, false, 0⟩] 7 b :=
  empty_text_no_mutation [⟨7, 1, "a".toList, false, 0⟩] 7
    (some " \t ".toList) 5 (by decide)

/-! ### C8 -/

/-- The table after `mark_done` is a pointwise rewrite of the old one. -/
lemma mark_done_fst (s : Store) (i uid : Int) :
    (mark_done s i uid).1 = s.map (fun t =>
      if t.id == i && t.user_id == uid then { t with done := true } else t) :=
  rfl

/-- C8 confirmed: `markDone` rewrites each row in place, changing at most the
`done` flag (and only from false to true, only on the matching row) while
`user_id`, `id`, `description` and `created_at` stay put; `add` leaves every
existing row untouched (the old table is a prefix of the new one); `delete`
only removes rows (the new table is a sublist of the old one).  So no
operation but `markDone` mutates an existing row, and `description` and
`created_at` are never updated after creation. -/
theorem row_immutability_frame (s : Store) (i uid : Int) (descr : List Char)
    (now : Nat) :
    (∀ (n : Nat) (t : Task), s[n]? = some t →
      ∃ t', ((mark_done s i uid).1)[n]? = some t' ∧
        t'.user_id = t.user_id ∧ t'.id = t.id ∧
        t'.description = t.description ∧ t'.created_at = t.created_at ∧
        (t'.done = t.done ∨
          (t.done = false ∧ t'.done = true ∧ t.id = i ∧ t.user_id = uid)) ∧
        (t.done = true → t'.done = true)) ∧
    (∀ (s' : Store) (j : Int), add_task s uid descr now = some (s', j) →
      s.IsPrefix s') ∧
    ((delete_task s i uid).1).Sublist s := by
  refine ⟨?_, ?_, List.filter_sublist s⟩
  · intro n t ht
    by_cases hc : (t.id == i && t.user_id == uid) = true
    · refine ⟨{ t with done := true }, ?_, rfl, rfl, rfl, rfl, ?_, fun _ => rfl⟩
      · rw [mark_done_fst, List.getElem?_map, ht, Option.map_some', if_pos hc]
      · cases hdone : t.done
        · obtain ⟨hci, hcu⟩ := by simpa using hc
          exact Or.inr ⟨rfl, rfl, hci, hcu⟩
        · exact Or.inl rfl
    · refine ⟨t, ?_, rfl, rfl, rfl, rfl, Or.inl rfl, fun hdt => hdt⟩
      rw [mark_done_fst, List.getElem?_map, ht, Option.map_some', if_neg hc]
  · intro s' j hadd
    simp only [add_task] at hadd
    split at hadd
    · cases hadd
    · rw [Option.some_inj] at hadd
      exact ⟨_, congrArg Prod.fst hadd⟩

/-- Witness for `row_immutability_frame`: the single not-yet-done matching
row of a one-row store is rewritten in place with only `done` changed. -/
theorem row_immutability_frame_witness :
    ∃ t', ((mark_done [⟨7, 1, "a".toList, false, 0⟩] 1 7).1)[0]? = some t' ∧
      t'.user_id = (⟨7, 1, "a".toList, false, 0⟩ : Task).user_id ∧
      t'.id = (⟨7, 1, "a".toList, false, 0⟩ : Task).id ∧
      t'.description = (⟨7, 1, "a".toList, false, 0⟩ : Task).description ∧
      t'.created_at = (⟨7, 1, "a".toList, false, 0⟩ : Task).created_at ∧
      (t'.done = (⟨7, 1, "a".toList, false, 0⟩ : Task).done ∨
        ((⟨7, 1, "a".toList, false, 0⟩ : Task).done = false ∧ t'.done = true ∧
         (⟨7, 1, "a".toList, false, 0⟩ : Task).id = 1 ∧
         (⟨7, 1, "a".toList, false, 0⟩ : Task).user_id = 7)) ∧
      ((⟨7, 1, "a".toList, false, 0⟩ : Task).done = true → t'.done = true) :=
  (row_immutability_frame [⟨7, 1, "a".toList, false, 0⟩] 1 7 "d".toList 5).1
    0 ⟨7, 1, "a".toList, false, 0⟩ rfl

/-! ### C9 -/

/-- C9 confirmed: an inline callback payload that is not `done:` or `del:`
followed by an `int()`-parseable id leaves the store untouched, and the user
gets either the unknown-command answer (unrecognised prefix) or the generic
server-error answer (the `ValueError` from `int()` lands in the surrounding
`except` before any store call). -/
theorem callback_malformed_no_mutation (s : Store) (uid : Int)
    (data? : Option (List Char))
    (h : ¬ (("done:".toList.isPrefixOf (data?.getD []) = true ∧
             (pyInt ((data?.getD []).drop 5)).isSome = true) ∨
            ("del:".toList.isPrefixOf (data?.getD []) = true ∧
             (pyInt ((data?.getD []).drop 4)).isSome = true))) :
    (handle_callback s uid data?).1 = s ∧
    ((handle_callback s uid data?).2 = .unknown ∨
     (handle_callback s uid data?).2 = .serverError) := by
  push_neg at h
  obtain ⟨hdone, hdel⟩ := h
  by_cases h1 : "done:".toList.isPrefixOf (data?.getD []) = true
  · have hp : pyInt ((data?.getD []).drop 5) = none := by
      cases he : pyInt ((data?.getD []).drop 5) with
      | none => rfl
      | some v => exact absurd (by rw [he]; rfl) (hdone h1)
    have hred : handle_callback s uid data? = (s, .serverError) := by
      simp only [handle_callback]
      rw [if_pos h1, hp]
    rw [hred]
    exact ⟨rfl, Or.inr rfl⟩
  · by_cases h2 : "del:".toList.isPrefixOf (data?.getD []) = true
    · have hp : pyInt ((data?.getD []).drop 4) = none := by
        cases he : pyInt ((data?.getD []).drop 4) with
        | none => rfl
        | some v => exact absurd (by rw [he]; rfl) (hdel h2)
      have hred : handle_callback s uid data? = (s, .serverError) := by
        simp only [handle_callback]
        rw [if_neg h1, if_pos h2, hp]
      rw [hred]
      exact ⟨rfl, Or.inr rfl⟩
    · have hred : handle_callback s uid data? = (s, .unknown) := by
        simp only [handle_callback]
        rw [if_neg h1, if_neg h2]
      rw [hred]
      exact ⟨rfl, Or.inl rfl⟩

/-- Witness for `callback_malformed_no_mutation` on the payload
`done:abc` (recognised prefix, unparseable id). -/
theorem callback_malformed_no_mutation_witness :
    (handle_callback [⟨7, 1, "a".toList, false, 0⟩] 7
        (some "done:abc".toList)).1 = [⟨7, 1, "a".toList, false, 0⟩] ∧
    ((handle_callback [⟨7, 1, "a".toList, false, 0⟩] 7
        (some "done:abc".toList)).2 = .unknown ∨
     (handle_callback [⟨7, 1, "a".toList, false, 0⟩] 7
        (some "done:abc".toList)).2 = .serverError) :=
  callback_malformed_no_mutation [⟨7, 1, "a".toList, false, 0⟩] 7
    (some "done:abc".toList) (by decide)

/-! ### C10 -/

/-- C10 confirmed: a next-step message with no text at all (`message.text`
is `None`) is handled exactly like the empty string — `(message.text or '')`
yields `''` — so no task is created, the empty-text error is sent, and no
exception arises (the handler is a total function in this embedding). -/
theorem none_text_like_empty (s : Store) (uid : Int) (now : Nat) :
    process_new_task s uid none now = process_new_task s uid (some []) now ∧
    process_new_task s uid none now = (s, .emptyErr, .idle) :=
  ⟨rfl, rfl⟩

end TodoBot
